import Mathlib

/-!
Verification of the LXD `dir` storage driver (`lxd/storage/drivers/driver_dir.go`)
and the USB device utilities (`lxd/device/device_utils_usb.go`) against their
natural-language specification.

Go maps from string to string are embedded as total functions `String → String`
(reading a missing key in Go yields `""`, matching the function default used in
all concrete configurations below).  Go `error` results are embedded as
`Option String` (`none` = nil, `some msg` = an error carrying message `msg`),
and Go `(T, error)` pairs as `Except String T` where the error is checked first.

Filesystem and mount-table facts are runtime OS state, not data owned by the
program, so they are supplied through an explicit environment record `Env` and
an explicit `MountState`; the helpers that live outside the analysed files
(`GetPoolMountPath`, `shared.VarPath`, `filepath.Clean`, `shared.PathExists`,
`shared.PathIsEmpty`, `sameMount`, `TryMount`, `forceUnmount`, `wipeDirectory`)
are modelled from the specification, as noted on each definition.
-/

/-- A pool / device configuration: Go `map[string]string`, with the Go
convention that a missing key reads as `""`. -/
def Config : Type := String → String

instance : Inhabited Config := ⟨fun _ => ""⟩

/-- Update one key of a configuration, Go `m[k] = v`. -/
def Config.set (c : Config) (k v : String) : Config :=
  fun k' => if k' = k then v else c k'

/-- Volume types supported by a driver, from `drivers` package constants. -/
inductive VolumeType where
  | Custom
  | Image
  | Container
  | VM
deriving DecidableEq, Repr

/-- The driver capability record, embedding the Go `Info` struct of the
`drivers` package. -/
structure DriverInfo where
  Name : String
  Version : String
  OptimizedImages : Bool
  PreservesInodes : Bool
  Remote : Bool
  VolumeTypes : List VolumeType
  BlockBacking : Bool
  RunningQuotaResize : Bool
  RunningSnapshotFreeze : Bool
deriving DecidableEq, Repr

/-- The `dir` driver instance: its pool name and its config snapshot
(the `common` struct fields the analysed methods use). -/
structure Dir where
  name : String
  config : Config

/-- Environment of OS / host facts consumed by the driver, supplied explicitly
because the driver re-queries the OS on every call.

Modelled from the spec: `varPath` is the managed storage root
(`shared.VarPath()`); `clean` is lexical path normalization
(`filepath.Clean`); `pathExists` is `shared.PathExists`; `pathIsEmpty` is
`shared.PathIsEmpty` (a directory-read that can itself fail, hence
`Except`); `mountOK` says whether an OS bind mount of the given source onto
the given target would succeed; `unmountStuck` says whether the OS keeps the
path mounted after the bounded unmount retries; `wipe` is `wipeDirectory`
(`none` = success, `some e` = the wipe error). -/
structure Env where
  varPath : String
  clean : String → String
  pathExists : String → Bool
  pathIsEmpty : String → Except String Bool
  mountOK : String → String → Bool
  unmountStuck : String → Bool
  wipe : String → Option String

/-- Go `strings.HasPrefix(s, pre)`, embedded on the character list so it is
kernel-evaluable. -/
def goHasPfx (s pre : String) : Bool :=
  pre.data.isPrefixOf s.data

/-- Modelled from the spec: the pool path resolver,
`canonicalPath(poolName) = managedRoot + "/storage-pools/" + poolName`
(`GetPoolMountPath` in the `drivers` package). -/
def GetPoolMountPath (varPath name : String) : String :=
  varPath ++ "/storage-pools/" ++ name

/-- The OS mount table as far as the driver observes it: a stack of bind
mounts, most recent first, each recording the target path and the mount
identity it was bound from. -/
structure MountState where
  mounts : List (String × String)
deriving DecidableEq, Repr

/-- The mount identity a path currently resolves to: the identity recorded by
the most recent mount targeting it, or the path itself when nothing is
mounted there. -/
def resolveMount : List (String × String) → String → String
  | [], p => p
  | (t, s) :: rest, p => if p = t then s else resolveMount rest p

/-- Modelled from the spec: mount-identity comparison (`sameMount`) —
whether two paths currently resolve to the same underlying mounted
filesystem instance, not mere string equality. -/
def sameMount (st : MountState) (a b : String) : Bool :=
  resolveMount st.mounts a = resolveMount st.mounts b

/-- Modelled from the spec: `TryMount` attempts the OS bind mount of `src`
onto `target`; on success the target thereafter resolves to the mount
identity `src` had at mount time; on failure it returns an error annotated
with the two paths and leaves the mount table unchanged. -/
def TryMount (env : Env) (src target : String) (st : MountState) :
    Option String × MountState :=
  if env.mountOK src target then
    (none, ⟨(target, resolveMount st.mounts src) :: st.mounts⟩)
  else
    (some ("Failed to mount '" ++ src ++ "' on '" ++ target ++ "'"), st)

/-- Modelled from the spec: `forceUnmount` unmounts the path until the OS no
longer reports it as a mount point, returning whether at least one unmount
occurred; if the path stays mounted once the retry bound is exhausted it
surfaces an error. -/
def forceUnmount (env : Env) (path : String) (st : MountState) :
    (Bool × Option String) × MountState :=
  if env.unmountStuck path then
    ((false, some ("Failed to unmount '" ++ path ++ "'")), st)
  else
    ((st.mounts.any (fun m => m.1 = path), none),
     ⟨st.mounts.filter (fun m => decide (m.1 ≠ path))⟩)

/-- `dir.Info` from `driver_dir.go`: the capability record of the `dir`
backend. -/
def Dir.Info (_d : Dir) : DriverInfo :=
  { Name := "dir"
    Version := "1"
    OptimizedImages := false
    PreservesInodes := false
    Remote := false
    VolumeTypes := [VolumeType.Custom, VolumeType.Image,
                    VolumeType.Container, VolumeType.VM]
    BlockBacking := false
    RunningQuotaResize := true
    RunningSnapshotFreeze := true }

/-- The OS-visible queries `Create` performs, recorded in order so that
short-circuiting is observable. -/
inductive CheckAction where
  | checkExists (p : String)
  | checkIsEmpty (p : String)
deriving DecidableEq, Repr

/-- `dir.Create` from `driver_dir.go`.  Returns the error (`none` = nil), the
driver with its possibly-updated config, and the ordered trace of
filesystem queries it performed. -/
def Dir.Create (env : Env) (d : Dir) : Option String × Dir × List CheckAction :=
  -- Set default source if missing.
  let config :=
    if d.config "source" = "" then
      d.config.set "source" (GetPoolMountPath env.varPath d.name)
    else d.config
  let src := config "source"
  if env.pathExists src = false then
    (some ("Source path '" ++ src ++ "' doesn't exist"),
     ⟨d.name, config⟩, [CheckAction.checkExists src])
  else
    -- Check that if within LXD_DIR, we're at our expected spot.
    let cleanSource := env.clean src
    if goHasPfx cleanSource env.varPath ∧
        cleanSource ≠ GetPoolMountPath env.varPath d.name then
      (some ("Source path '" ++ src ++ "' is within the LXD directory"),
       ⟨d.name, config⟩, [CheckAction.checkExists src])
    else
      -- Check that the path is currently empty.
      match env.pathIsEmpty src with
      | Except.error e =>
          (some e, ⟨d.name, config⟩,
           [CheckAction.checkExists src, CheckAction.checkIsEmpty src])
      | Except.ok isEmpty =>
          if isEmpty = false then
            (some ("Source path '" ++ src ++ "' isn't empty"),
             ⟨d.name, config⟩,
             [CheckAction.checkExists src, CheckAction.checkIsEmpty src])
          else
            (none, ⟨d.name, config⟩,
             [CheckAction.checkExists src, CheckAction.checkIsEmpty src])

/-- `dir.Mount` from `driver_dir.go`: `(performedMount, error)` plus the
resulting mount table. -/
def Dir.Mount (env : Env) (d : Dir) (st : MountState) :
    (Bool × Option String) × MountState :=
  let path := GetPoolMountPath env.varPath d.name
  -- Check if we're dealing with an external mount.
  if d.config "source" = path then ((false, none), st)
  -- Check if already mounted.
  else if sameMount st (d.config "source") path then ((false, none), st)
  else
    -- Setup the bind-mount.
    match TryMount env (d.config "source") path st with
    | (some e, st') => ((false, some e), st')
    | (none, st') => ((true, none), st')

/-- `dir.Unmount` from `driver_dir.go`. -/
def Dir.Unmount (env : Env) (d : Dir) (st : MountState) :
    (Bool × Option String) × MountState :=
  let path := GetPoolMountPath env.varPath d.name
  -- Check if we're dealing with an external mount.
  if d.config "source" = path then ((false, none), st)
  -- Unmount until nothing is left mounted.
  else forceUnmount env path st

/-- The destructive steps `Delete` performs, recorded in order. -/
inductive DelAction where
  | wipeDir (p : String)
  | unmountPool (p : String)
deriving DecidableEq, Repr

/-- `dir.Delete` from `driver_dir.go`: wipe the canonical path, then unmount.
Returns the error, the resulting mount table, and the ordered trace of
destructive steps attempted.  The progress handle is ignored by the code. -/
def Dir.Delete (env : Env) (d : Dir) (st : MountState) :
    Option String × MountState × List DelAction :=
  let path := GetPoolMountPath env.varPath d.name
  -- On delete, wipe everything in the directory.
  match env.wipe path with
  | some e => (some e, st, [DelAction.wipeDir path])
  | none =>
      -- Unmount the path.
      match Dir.Unmount env d st with
      | ((_, some e), st') =>
          (some e, st', [DelAction.wipeDir path, DelAction.unmountPool path])
      | ((_, none), st') =>
          (none, st', [DelAction.wipeDir path, DelAction.unmountPool path])

/-! ## USB device utilities (`device_utils_usb.go`) -/

/-- The `USBDevice` struct from `device_utils_usb.go`. -/
structure USBDevice where
  Action : String
  Vendor : String
  Product : String
  Path : String
  Major : Nat
  Minor : Nat
  UeventParts : List String
  UeventLen : Nat

/-- The instance identity consumed by the USB handler registry: the
`Project()` and `Name()` methods of `InstanceIdentifier`. -/
structure InstanceIdentifier where
  Project : String
  Name : String

/-- The USB handler registry keyed by string; handler callbacks are abstracted
by an arbitrary payload type `H`. -/
def USBHandlers (H : Type) : Type := String → Option H

/-- Null delimited string of project name, instance name and device name, the
registry key built by `USBRegisterHandler` / `USBUnregisterHandler`. -/
def usbKey (projectName instanceName deviceName : String) : String :=
  projectName ++ "\x00" ++ instanceName ++ "\x00" ++ deviceName

/-- `USBRegisterHandler`: store the handler under the null-delimited key. -/
def USBRegisterHandler {H : Type} (reg : USBHandlers H)
    (instance_ : InstanceIdentifier) (deviceName : String) (handler : H) :
    USBHandlers H :=
  fun k =>
    if k = usbKey instance_.Project instance_.Name deviceName then some handler
    else reg k

/-- `USBUnregisterHandler`: delete the entry under the null-delimited key. -/
def USBUnregisterHandler {H : Type} (reg : USBHandlers H)
    (instance_ : InstanceIdentifier) (deviceName : String) :
    USBHandlers H :=
  fun k =>
    if k = usbKey instance_.Project instance_.Name deviceName then none
    else reg k

/-- `USBIsOurDevice` from `device_utils_usb.go`. -/
def USBIsOurDevice (config : Config) (usb : USBDevice) : Bool :=
  if (config "vendorid" ≠ "" ∧ config "vendorid" ≠ usb.Vendor) ∨
     (config "productid" ≠ "" ∧ config "productid" ≠ usb.Product) then
    false
  else
    true

/-! ## Theorems -/

/-- **C7.** `Info()` is pure and deterministic: on every call, in every driver
state (any name, any config, so in particular before `Create`), it returns the
same capability record with name `"dir"`, version `"1"`, all four volume
categories supported, live quota resize and live snapshot freeze `true`, and
optimized images, inode preservation, remoteness and block backing all
`false`; being a pure function of the driver value it modifies no state. -/
theorem dir_info_constant (d : Dir) :
    d.Info =
      { Name := "dir"
        Version := "1"
        OptimizedImages := false
        PreservesInodes := false
        Remote := false
        VolumeTypes := [VolumeType.Custom, VolumeType.Image,
                        VolumeType.Container, VolumeType.VM]
        BlockBacking := false
        RunningQuotaResize := true
        RunningSnapshotFreeze := true } := rfl

/-- **C10.** `USBIsOurDevice` returns `true` iff the config's `vendorid` is
empty or equal to the event's vendor, and the config's `productid` is empty or
equal to the event's product. -/
theorem usb_is_our_device_iff (config : Config) (usb : USBDevice) :
    USBIsOurDevice config usb = true ↔
      (config "vendorid" = "" ∨ config "vendorid" = usb.Vendor) ∧
      (config "productid" = "" ∨ config "productid" = usb.Product) := by
  unfold USBIsOurDevice
  by_cases hv : config "vendorid" = "" <;>
    by_cases hv' : config "vendorid" = usb.Vendor <;>
    by_cases hp : config "productid" = "" <;>
    by_cases hp' : config "productid" = usb.Product <;>
    simp [hv, hv', hp, hp']

/-! ## Helper lemmas shared by several theorems -/

/-- Resolving a path untouched by the newest mount falls through to the rest
of the table. -/
lemma resolveMount_cons_ne (t s p : String) (m : List (String × String))
    (h : p ≠ t) : resolveMount ((t, s) :: m) p = resolveMount m p := by
  simp [resolveMount, h]

/-- Resolving the target of the newest mount yields the recorded identity. -/
lemma resolveMount_cons_self (t s : String) (m : List (String × String)) :
    resolveMount ((t, s) :: m) t = s := by
  simp [resolveMount]

/-- `Mount` is a no-op returning `(false, nil)` for a self-managed pool. -/
lemma mount_noop_of_source_eq (env : Env) (d : Dir) (st : MountState)
    (h : d.config "source" = GetPoolMountPath env.varPath d.name) :
    Dir.Mount env d st = ((false, none), st) := by
  simp [Dir.Mount, h]

/-- `Unmount` is a no-op returning `(false, nil)` for a self-managed pool. -/
lemma unmount_noop_of_source_eq (env : Env) (d : Dir) (st : MountState)
    (h : d.config "source" = GetPoolMountPath env.varPath d.name) :
    Dir.Unmount env d st = ((false, none), st) := by
  simp [Dir.Unmount, h]

/-- The source path `Create` actually checks: the configured source, or the
pool's canonical path when the source is unset. -/
def effectiveSource (env : Env) (d : Dir) : String :=
  if d.config "source" = "" then GetPoolMountPath env.varPath d.name
  else d.config "source"

/-- The driver value `Create` returns in every branch: only the `source` key
can change, and only when it was empty. -/
def createdDir (env : Env) (d : Dir) : Dir :=
  ⟨d.name,
   if d.config "source" = "" then
     d.config.set "source" (GetPoolMountPath env.varPath d.name)
   else d.config⟩

/-- Branch-free characterization of `Dir.Create` in terms of
`effectiveSource` and `createdDir`. -/
lemma dir_create_unfold (env : Env) (d : Dir) :
    Dir.Create env d =
      (if env.pathExists (effectiveSource env d) = false then
        (some ("Source path '" ++ effectiveSource env d ++ "' doesn't exist"),
         createdDir env d, [CheckAction.checkExists (effectiveSource env d)])
       else if goHasPfx (env.clean (effectiveSource env d)) env.varPath ∧
           env.clean (effectiveSource env d) ≠
             GetPoolMountPath env.varPath d.name then
        (some ("Source path '" ++ effectiveSource env d ++
                 "' is within the LXD directory"),
         createdDir env d, [CheckAction.checkExists (effectiveSource env d)])
       else
        match env.pathIsEmpty (effectiveSource env d) with
        | Except.error e =>
            (some e, createdDir env d,
             [CheckAction.checkExists (effectiveSource env d),
              CheckAction.checkIsEmpty (effectiveSource env d)])
        | Except.ok isEmpty =>
            if isEmpty = false then
              (some ("Source path '" ++ effectiveSource env d ++
                       "' isn't empty"),
               createdDir env d,
               [CheckAction.checkExists (effectiveSource env d),
                CheckAction.checkIsEmpty (effectiveSource env d)])
            else
              (none, createdDir env d,
               [CheckAction.checkExists (effectiveSource env d),
                CheckAction.checkIsEmpty (effectiveSource env d)])) := by
  by_cases h0 : d.config "source" = "" <;>
    simp [Dir.Create, effectiveSource, createdDir, Config.set, h0]

/-- The driver returned by `Create` is `createdDir` in every branch. -/
lemma dir_create_driver (env : Env) (d : Dir) :
    (Dir.Create env d).2.1 = createdDir env d := by
  rw [dir_create_unfold]
  split
  · rfl
  · split
    · rfl
    · split
      · rfl
      · split <;> rfl

/-! ## Concrete pools and environments used by witnesses -/

/-- An environment in which every OS operation succeeds: all paths exist and
are empty, mounts and unmounts succeed, wipes succeed. -/
def envA : Env :=
  { varPath := "/var/lib/lxd"
    clean := id
    pathExists := fun _ => true
    pathIsEmpty := fun _ => Except.ok true
    mountOK := fun _ _ => true
    unmountStuck := fun _ => false
    wipe := fun _ => none }

/-- Like `envA` but the recursive wipe fails. -/
def envWipeFail : Env := { envA with wipe := fun _ => some "wipe failed" }

/-- Pool `data` with an external source directory. -/
def poolData : Dir := ⟨"data", fun k => if k = "source" then "/mnt/data" else ""⟩

/-- Pool `default` with no configured source. -/
def poolDefault : Dir := ⟨"default", fun _ => ""⟩

/-- Self-managed pool: source equals the canonical path. -/
def poolSelf : Dir :=
  ⟨"default",
   fun k => if k = "source" then "/var/lib/lxd/storage-pools/default" else ""⟩

/-- Pool `bad` whose source sits inside another pool's managed area. -/
def poolBad : Dir :=
  ⟨"bad",
   fun k => if k = "source" then "/var/lib/lxd/storage-pools/other" else ""⟩

/-- **C5.** For every pool whose configured source equals its canonical mount
path (self-managed pool), `Mount()` and `Unmount()` both return `(false, nil)`
and leave the OS mount table untouched. -/
theorem dir_self_managed_noop (env : Env) (d : Dir) (st : MountState)
    (h : d.config "source" = GetPoolMountPath env.varPath d.name) :
    Dir.Mount env d st = ((false, none), st) ∧
    Dir.Unmount env d st = ((false, none), st) :=
  ⟨mount_noop_of_source_eq env d st h, unmount_noop_of_source_eq env d st h⟩

/-- Witness for C5 at the concrete self-managed pool `poolSelf`. -/
theorem dir_self_managed_noop_witness :
    Dir.Mount envA poolSelf ⟨[]⟩ = ((false, none), (⟨[]⟩ : MountState)) ∧
    Dir.Unmount envA poolSelf ⟨[]⟩ = ((false, none), (⟨[]⟩ : MountState)) :=
  dir_self_managed_noop envA poolSelf ⟨[]⟩ (by decide)

/-- **C4.** For a pool whose source differs from the canonical path and is not
currently mounted there, the first `Mount()` returns `(true, nil)` and pushes
the bind mount onto the mount table; the immediately repeated `Mount()`
returns `(false, nil)` and performs no new mount (the table is unchanged).
The repeat call is short-circuited by the mount-identity comparison
`sameMount`, which now reports the two (still textually different) paths as
the same mount — not by string equality, which still fails. -/
theorem dir_mount_idempotent (env : Env) (d : Dir) (st : MountState)
    (hne : d.config "source" ≠ GetPoolMountPath env.varPath d.name)
    (hnm : sameMount st (d.config "source")
        (GetPoolMountPath env.varPath d.name) = false)
    (hok : env.mountOK (d.config "source")
        (GetPoolMountPath env.varPath d.name) = true) :
    (Dir.Mount env d st).1 = (true, none) ∧
    (Dir.Mount env d st).2 =
      ⟨(GetPoolMountPath env.varPath d.name,
        resolveMount st.mounts (d.config "source")) :: st.mounts⟩ ∧
    sameMount (Dir.Mount env d st).2 (d.config "source")
        (GetPoolMountPath env.varPath d.name) = true ∧
    Dir.Mount env d (Dir.Mount env d st).2 =
      ((false, none), (Dir.Mount env d st).2) := by
  have hfirst : Dir.Mount env d st =
      ((true, none),
       ⟨(GetPoolMountPath env.varPath d.name,
         resolveMount st.mounts (d.config "source")) :: st.mounts⟩) := by
    simp [Dir.Mount, hne, hnm, TryMount, hok]
  have hsame : sameMount
      (⟨(GetPoolMountPath env.varPath d.name,
         resolveMount st.mounts (d.config "source")) :: st.mounts⟩ : MountState)
      (d.config "source") (GetPoolMountPath env.varPath d.name) = true := by
    simp only [sameMount, decide_eq_true_eq]
    rw [resolveMount_cons_ne _ _ _ _ hne, resolveMount_cons_self]
  refine ⟨by rw [hfirst], by rw [hfirst], by rw [hfirst]; exact hsame, ?_⟩
  rw [hfirst]
  simp [Dir.Mount, hne, hsame]

/-- Witness for C4: pool `data` with source `/mnt/data`, starting from an
empty mount table in the all-succeeding environment. -/
theorem dir_mount_idempotent_witness :
    (Dir.Mount envA poolData ⟨[]⟩).1 = (true, none) ∧
    Dir.Mount envA poolData (Dir.Mount envA poolData ⟨[]⟩).2 =
      ((false, none), (Dir.Mount envA poolData ⟨[]⟩).2) :=
  ⟨(dir_mount_idempotent envA poolData ⟨[]⟩ (by decide) (by decide)
      (by decide)).1,
   (dir_mount_idempotent envA poolData ⟨[]⟩ (by decide) (by decide)
      (by decide)).2.2.2⟩

/-- **C6.** When `Create()` runs with the `source` config key unset, it sets
`source` to the pool's canonical mount path (before running its checks: the
returned driver carries that source in every outcome branch), and a subsequent
`Mount()` on the returned pool yields `(false, nil)` without touching the
mount table. -/
theorem dir_create_defaults_source (env : Env) (d : Dir) (st : MountState)
    (h : d.config "source" = "") :
    (Dir.Create env d).2.1.config "source" =
      GetPoolMountPath env.varPath d.name ∧
    Dir.Mount env (Dir.Create env d).2.1 st = ((false, none), st) := by
  have hdrv : (Dir.Create env d).2.1 = createdDir env d := dir_create_driver env d
  have hsrc : (createdDir env d).config "source" =
      GetPoolMountPath env.varPath d.name := by
    simp [createdDir, Config.set, h]
  refine ⟨by rw [hdrv]; exact hsrc, ?_⟩
  rw [hdrv]
  exact mount_noop_of_source_eq env (createdDir env d) st hsrc

/-- Witness for C6 at pool `default` with empty config. -/
theorem dir_create_defaults_source_witness :
    (Dir.Create envA poolDefault).2.1.config "source" =
      GetPoolMountPath envA.varPath poolDefault.name ∧
    Dir.Mount envA (Dir.Create envA poolDefault).2.1 ⟨[]⟩ =
      ((false, none), (⟨[]⟩ : MountState)) :=
  dir_create_defaults_source envA poolDefault ⟨[]⟩ (by decide)

/-- **C2.** In `Delete`, the recursive wipe of the canonical path runs before
any unmount (the trace opens with the wipe step); if the wipe errors, `Delete`
returns that error immediately, the unmount step is never attempted and the
mount table is untouched; if the wipe succeeds, `Delete`'s result is exactly
the error (and mount table) produced by the subsequent `Unmount`. -/
theorem dir_delete_wipe_then_unmount (env : Env) (d : Dir) (st : MountState) :
    (∀ e, env.wipe (GetPoolMountPath env.varPath d.name) = some e →
      Dir.Delete env d st =
        (some e, st, [DelAction.wipeDir (GetPoolMountPath env.varPath d.name)])) ∧
    (env.wipe (GetPoolMountPath env.varPath d.name) = none →
      Dir.Delete env d st =
        ((Dir.Unmount env d st).1.2, (Dir.Unmount env d st).2,
         [DelAction.wipeDir (GetPoolMountPath env.varPath d.name),
          DelAction.unmountPool (GetPoolMountPath env.varPath d.name)])) := by
  constructor
  · intro e he
    simp [Dir.Delete, he]
  · intro h0
    simp only [Dir.Delete, h0]
    rcases h1 : Dir.Unmount env d st with ⟨⟨b, err⟩, st'⟩
    cases err <;> simp

/-- Witness for C2: a failing wipe on pool `data` returns the wipe error with
the pool still mounted and no unmount step in the trace. -/
theorem dir_delete_wipe_then_unmount_witness :
    Dir.Delete envWipeFail poolData ⟨[("/var/lib/lxd/storage-pools/data", "/mnt/data")]⟩ =
      (some "wipe failed",
       ⟨[("/var/lib/lxd/storage-pools/data", "/mnt/data")]⟩,
       [DelAction.wipeDir "/var/lib/lxd/storage-pools/data"]) :=
  (dir_delete_wipe_then_unmount envWipeFail poolData
      ⟨[("/var/lib/lxd/storage-pools/data", "/mnt/data")]⟩).1
    "wipe failed" (by decide)

/-- **C3.** `Create` runs its checks in the fixed order existence →
containment → emptiness, and the first failing check returns its error
without the later filesystem checks being performed: when existence fails the
trace holds only the existence query and the result is the not-found error;
when existence passes but containment fails the result is the containment
error and the emptiness query was still not performed; only when both pass is
the emptiness query issued, whereupon its error, or the not-empty error, or
success is returned. -/
theorem dir_create_check_order (env : Env) (d : Dir) :
    (env.pathExists (effectiveSource env d) = false →
      (Dir.Create env d).1 =
        some ("Source path '" ++ effectiveSource env d ++ "' doesn't exist") ∧
      (Dir.Create env d).2.2 =
        [CheckAction.checkExists (effectiveSource env d)]) ∧
    (env.pathExists (effectiveSource env d) = true →
     goHasPfx (env.clean (effectiveSource env d)) env.varPath = true →
     env.clean (effectiveSource env d) ≠ GetPoolMountPath env.varPath d.name →
      (Dir.Create env d).1 =
        some ("Source path '" ++ effectiveSource env d ++
                "' is within the LXD directory") ∧
      (Dir.Create env d).2.2 =
        [CheckAction.checkExists (effectiveSource env d)]) ∧
    (env.pathExists (effectiveSource env d) = true →
     ¬(goHasPfx (env.clean (effectiveSource env d)) env.varPath = true ∧
        env.clean (effectiveSource env d) ≠
          GetPoolMountPath env.varPath d.name) →
      (Dir.Create env d).2.2 =
        [CheckAction.checkExists (effectiveSource env d),
         CheckAction.checkIsEmpty (effectiveSource env d)] ∧
      (∀ e, env.pathIsEmpty (effectiveSource env d) = Except.error e →
        (Dir.Create env d).1 = some e) ∧
      (env.pathIsEmpty (effectiveSource env d) = Except.ok false →
        (Dir.Create env d).1 =
          some ("Source path '" ++ effectiveSource env d ++ "' isn't empty")) ∧
      (env.pathIsEmpty (effectiveSource env d) = Except.ok true →
        (Dir.Create env d).1 = none)) := by
  rw [dir_create_unfold]
  refine ⟨?_, ?_, ?_⟩
  · intro hex
    simp [hex]
  · intro hex hsw hneq
    simp [hex, hsw, hneq]
  · intro hex hnc
    rw [if_neg (by simp [hex]), if_neg hnc]
    refine ⟨?_, ?_, ?_, ?_⟩
    · rcases hie : env.pathIsEmpty (effectiveSource env d) with e | b
      · simp
      · cases b <;> simp
    · intro e he
      rw [he]
    · intro he
      rw [he]
      simp
    · intro he
      rw [he]
      simp

/-- Witness for C3: in the all-succeeding environment, pool `data` passes all
three checks; the trace shows existence queried before emptiness and the
result is success. -/
theorem dir_create_check_order_witness :
    (Dir.Create envA poolData).2.2 =
      [CheckAction.checkExists (effectiveSource envA poolData),
       CheckAction.checkIsEmpty (effectiveSource envA poolData)] ∧
    (Dir.Create envA poolData).1 = none :=
  ⟨((dir_create_check_order envA poolData).2.2 (by decide) (by decide)).1,
   ((dir_create_check_order envA poolData).2.2 (by decide) (by decide)).2.2.2
     rfl⟩

/-- **C8.** `Create` writes no config key other than `source`, and writes
`source` only when it was previously empty: when the incoming `source` is
non-empty the whole config mapping (and the pool name) is returned unchanged
whatever `Create`'s outcome, and in every case any key other than `source` is
unchanged. -/
theorem dir_create_frame (env : Env) (d : Dir) :
    (d.config "source" ≠ "" → (Dir.Create env d).2.1.config = d.config) ∧
    (∀ k, k ≠ "source" → (Dir.Create env d).2.1.config k = d.config k) ∧
    (Dir.Create env d).2.1.name = d.name := by
  rw [dir_create_driver]
  refine ⟨?_, ?_, rfl⟩
  · intro hne
    simp [createdDir, hne]
  · intro k hk
    by_cases h0 : d.config "source" = "" <;>
      simp [createdDir, Config.set, h0, hk]

/-- Witness for C8: pool `data` has a non-empty source, so `Create` returns
its config untouched; the unrelated key `size` is also untouched. -/
theorem dir_create_frame_witness :
    (Dir.Create envA poolData).2.1.config = poolData.config ∧
    (Dir.Create envA poolData).2.1.config "size" = poolData.config "size" :=
  ⟨(dir_create_frame envA poolData).1 (by decide),
   (dir_create_frame envA poolData).2.1 "size" (by decide)⟩

/-- **C1, counterexample.** Pool `bad` with source
`/var/lib/lxd/storage-pools/other`: the (identity-normalized, existing) source
lies under the managed storage root and differs from the pool's canonical
path, yet `Create` does not return the message
`Source path '...' is within the managed storage directory` — the code's
message says `within the LXD directory` instead. -/
theorem dir_create_containment_message_cex :
    (goHasPfx (envA.clean (poolBad.config "source")) envA.varPath = true ∧
     envA.clean (poolBad.config "source") ≠
       GetPoolMountPath envA.varPath poolBad.name ∧
     envA.pathExists (poolBad.config "source") = true) ∧
    (Dir.Create envA poolBad).1 ≠
      some ("Source path '" ++ poolBad.config "source" ++
              "' is within the managed storage directory") ∧
    (Dir.Create envA poolBad).1 =
      some ("Source path '" ++ poolBad.config "source" ++
              "' is within the LXD directory") := by
  refine ⟨⟨by decide, by decide, rfl⟩, by decide, by decide⟩

/-- **C1, amended.** For every pool whose effective source path exists and,
once path-normalized, falls under the managed storage root (string-prefix
check, as in the code) but is not exactly the pool's canonical path, `Create`
fails with an error whose message is exactly
`Source path '<path>' is within the LXD directory`, with `<path>` the
configured source. -/
theorem dir_create_containment_error (env : Env) (d : Dir)
    (hex : env.pathExists (effectiveSource env d) = true)
    (hsw : goHasPfx (env.clean (effectiveSource env d)) env.varPath = true)
    (hne : env.clean (effectiveSource env d) ≠
      GetPoolMountPath env.varPath d.name) :
    (Dir.Create env d).1 =
      some ("Source path '" ++ effectiveSource env d ++
              "' is within the LXD directory") := by
  rw [dir_create_unfold]
  rw [if_neg (by simp [hex]), if_pos ⟨hsw, hne⟩]

/-- Witness for the amended C1 at pool `bad`. -/
theorem dir_create_containment_error_witness :
    (Dir.Create envA poolBad).1 =
      some ("Source path '" ++ effectiveSource envA poolBad ++
              "' is within the LXD directory") :=
  dir_create_containment_error envA poolBad rfl (by decide) (by decide)

/-- **C9, counterexample.** The null-delimited key is not injective on name
triples containing the NUL character: the distinct triples
`("a\x00b", "c", "d")` and `("a", "b\x00c", "d")` build the same key, so
unregistering the second deletes the handler registered under the first. -/
theorem usb_handler_key_collision_cex :
    (¬("a\x00b" = "a" ∧ "c" = "b\x00c" ∧ "d" = "d")) ∧
    (USBRegisterHandler (fun _ => none : USBHandlers Nat) ⟨"a\x00b", "c"⟩ "d" 7)
        (usbKey "a\x00b" "c" "d") = some 7 ∧
    (USBUnregisterHandler
        (USBRegisterHandler (fun _ => none : USBHandlers Nat)
          ⟨"a\x00b", "c"⟩ "d" 7)
        ⟨"a", "b\x00c"⟩ "d")
        (usbKey "a\x00b" "c" "d") = none := by
  refine ⟨by decide, by decide, by decide⟩

/-- **C9, amended.** `USBRegisterHandler` followed by `USBUnregisterHandler`
with the same project, instance and device names leaves the registry with no
entry for that triple; and registration and unregistration for one triple
never affect the entry of any triple whose null-delimited key differs — in
particular any distinct triple none of whose components contains a NUL
character. -/
theorem usb_register_unregister_isolated {H : Type} (reg : USBHandlers H)
    (i1 i2 : InstanceIdentifier) (dev1 dev2 : String) (h : H)
    (hk : usbKey i2.Project i2.Name dev2 ≠ usbKey i1.Project i1.Name dev1) :
    (USBUnregisterHandler (USBRegisterHandler reg i1 dev1 h) i1 dev1)
        (usbKey i1.Project i1.Name dev1) = none ∧
    (USBRegisterHandler reg i1 dev1 h) (usbKey i2.Project i2.Name dev2) =
      reg (usbKey i2.Project i2.Name dev2) ∧
    (USBUnregisterHandler reg i1 dev1) (usbKey i2.Project i2.Name dev2) =
      reg (usbKey i2.Project i2.Name dev2) := by
  refine ⟨?_, ?_, ?_⟩ <;>
    simp [USBRegisterHandler, USBUnregisterHandler, hk]

/-- Witness for the amended C9 at two NUL-free triples. -/
theorem usb_register_unregister_isolated_witness :
    (USBUnregisterHandler
        (USBRegisterHandler (fun _ => none : USBHandlers Nat)
          ⟨"proj1", "inst1"⟩ "dev1" 3)
        ⟨"proj1", "inst1"⟩ "dev1")
        (usbKey "proj1" "inst1" "dev1") = none ∧
    (USBRegisterHandler (fun _ => none : USBHandlers Nat)
        ⟨"proj1", "inst1"⟩ "dev1" 3)
        (usbKey "proj2" "inst2" "dev2") =
      (fun _ => none : USBHandlers Nat) (usbKey "proj2" "inst2" "dev2") ∧
    (USBUnregisterHandler (fun _ => none : USBHandlers Nat)
        ⟨"proj1", "inst1"⟩ "dev1")
        (usbKey "proj2" "inst2" "dev2") =
      (fun _ => none : USBHandlers Nat) (usbKey "proj2" "inst2" "dev2") :=
  usb_register_unregister_isolated (fun _ => none) ⟨"proj1", "inst1"⟩
    ⟨"proj2", "inst2"⟩ "dev1" "dev2" 3 (by decide)
